import Mathlib

/-!
Shallow embedding of the metaverse-lab development server
(`src/debug-server.py`) and of the offline administrative tool
(`src/tools/user_manager.py`), for checking the natural-language
specification against the code.

External collaborators that the Python code calls but whose code is not
part of this repository (the `json` / `base64` / `hashlib` standard
library functions, the `google.genai` provider client, the filesystem,
and `SimpleHTTPRequestHandler`'s static file serving) are represented as
explicit parameters, so that every repository-owned decision (routing,
validation, error translation, header finalisation) is modelled
concretely from the source.
-/

/-! ## JSON values

Models the Python objects produced by `json.loads`.  Only integral
numbers are modelled; no route of the server inspects numeric bodies. -/

inductive JValue where
  | null
  | bool (b : Bool)
  | num (n : Int)
  | str (s : String)
  | arr (xs : List JValue)
  | obj (kvs : List (String × JValue))

/-- Python truthiness (`if not x`) for the JSON-decoded values:
`None`, `False`, `0`, `""`, `[]` and `{}` are falsy. -/
def pyTruthy : JValue → Bool
  | JValue.null => false
  | JValue.bool b => b
  | JValue.num n => !(n == 0)
  | JValue.str s => !s.isEmpty
  | JValue.arr xs => !xs.isEmpty
  | JValue.obj kvs => !kvs.isEmpty

/-- Python truthiness of a `dict.get` result (`None` when the key is
absent). -/
def pyTruthyOpt : Option JValue → Bool
  | none => false
  | some v => pyTruthy v

/-- `dict.get(k)`: JSON objects decoded by `json.loads` have unique
keys, so first-match lookup is exact. -/
def dictGet (kvs : List (String × JValue)) (k : String) : Option JValue :=
  (kvs.find? (fun kv => kv.1 == k)).map (fun kv => kv.2)

/-- Python type names, used in `AttributeError` messages raised by
`data.get(...)` when the parsed body is not a dict. -/
def typeName : JValue → String
  | JValue.null => "NoneType"
  | JValue.bool _ => "bool"
  | JValue.num _ => "int"
  | JValue.str _ => "str"
  | JValue.arr _ => "list"
  | JValue.obj _ => "dict"

/-- Message of the `AttributeError` raised by `x.get(...)` on a
non-dict value. -/
def attrErrMsg (v : JValue) (member : String) : String :=
  "\x27" ++ typeName v ++ "\x27 object has no attribute \x27" ++ member ++ "\x27"

mutual

/-- Python `repr()` for the JSON-decoded values (string escaping inside
container renderings is simplified; no claim depends on it). -/
def pyRepr : JValue → String
  | JValue.null => "None"
  | JValue.bool true => "True"
  | JValue.bool false => "False"
  | JValue.num n => toString n
  | JValue.str s => "\x27" ++ s ++ "\x27"
  | JValue.arr xs => "[" ++ String.intercalate ", " (pyReprList xs) ++ "]"
  | JValue.obj kvs =>
      "\x7b" ++ String.intercalate ", " (pyReprKVs kvs) ++ "\x7d"

/-- `repr()` of the elements of a list. -/
def pyReprList : List JValue → List String
  | [] => []
  | v :: vs => pyRepr v :: pyReprList vs

/-- `repr()` of the key/value pairs of a dict. -/
def pyReprKVs : List (String × JValue) → List String
  | [] => []
  | kv :: kvs => ("\x27" ++ kv.1 ++ "\x27: " ++ pyRepr kv.2) :: pyReprKVs kvs

end

/-- Python `str()` as used in the handler's f-strings. -/
def pyStr : JValue → String
  | JValue.str s => s
  | v => pyRepr v

/-! ## Strict UTF-8 decoding

Models `bytes.decode('utf-8')` with the default strict error handler:
rejects continuation-byte starts, overlong encodings, surrogates and
code points above U+10FFFF.  Bytes are `Nat`s below 256. -/

def isCont (b : Nat) : Bool := 0x80 ≤ b && b ≤ 0xBF

/-- Fuel-indexed strict UTF-8 decoder; fuel at least the list length
always suffices (each step consumes ≥ 1 byte). -/
def utf8FoldAux : Nat → List Nat → Option (List Char)
  | _, [] => some []
  | 0, _ :: _ => none
  | fuel + 1, b :: bs =>
    if b ≤ 0x7F then
      (utf8FoldAux fuel bs).map (fun cs => Char.ofNat b :: cs)
    else if b < 0xC2 then none
    else if b ≤ 0xDF then
      match bs with
      | b2 :: bs2 =>
        if isCont b2 then
          (utf8FoldAux fuel bs2).map
            (fun cs => Char.ofNat ((b - 0xC0) * 0x40 + (b2 - 0x80)) :: cs)
        else none
      | [] => none
    else if b ≤ 0xEF then
      match bs with
      | b2 :: b3 :: bs3 =>
        if (if b == 0xE0 then 0xA0 ≤ b2 && b2 ≤ 0xBF
            else if b == 0xED then 0x80 ≤ b2 && b2 ≤ 0x9F
            else isCont b2) && isCont b3 then
          (utf8FoldAux fuel bs3).map
            (fun cs =>
              Char.ofNat ((b - 0xE0) * 0x1000 + (b2 - 0x80) * 0x40 + (b3 - 0x80)) :: cs)
        else none
      | _ => none
    else if b ≤ 0xF4 then
      match bs with
      | b2 :: b3 :: b4 :: bs4 =>
        if (if b == 0xF0 then 0x90 ≤ b2 && b2 ≤ 0xBF
            else if b == 0xF4 then 0x80 ≤ b2 && b2 ≤ 0x8F
            else isCont b2) && isCont b3 && isCont b4 then
          (utf8FoldAux fuel bs4).map
            (fun cs =>
              Char.ofNat ((b - 0xF0) * 0x40000 + (b2 - 0x80) * 0x1000 +
                          (b3 - 0x80) * 0x40 + (b4 - 0x80)) :: cs)
        else none
      | _ => none
    else none

/-- `bytes.decode('utf-8')` (strict): `some` of the decoded text, or
`none` when Python raises `UnicodeDecodeError`. -/
def utf8Decode (bs : List Nat) : Option String :=
  (utf8FoldAux bs.length bs).map (fun cs => String.mk cs)

/-! ## The credential regex

`re.search(r'GEMINI_API_KEY\s*=\s*["\x27]([^"\x27]+)["\x27]', content)`
from `get_api_key` (src/debug-server.py:30): leftmost match of the
literal key name, optional whitespace around `=`, one quote character
(either kind), a non-empty greedy run of non-quote characters (the
capture), and a closing quote character (either kind). -/

def isPyWs (c : Char) : Bool :=
  c == ' ' || c == '\t' || c == '\n' || c == '\r' ||
  c.toNat == 11 || c.toNat == 12

def quoteChar (c : Char) : Bool := c.toNat == 34 || c.toNat == 39

/-- Drop a literal character sequence, or fail. -/
def dropLit : List Char → List Char → Option (List Char)
  | [], cs => some cs
  | _ :: _, [] => none
  | l :: ls, c :: cs => if c == l then dropLit ls cs else none

/-- Try the pattern anchored at the start of `cs`; return the captured
group. -/
def matchHere (cs : List Char) : Option String :=
  match dropLit "GEMINI_API_KEY".toList cs with
  | none => none
  | some cs1 =>
    match cs1.dropWhile isPyWs with
    | [] => none
    | c :: cs2 =>
      if c == '=' then
        match cs2.dropWhile isPyWs with
        | [] => none
        | q :: cs3 =>
          if quoteChar q then
            let cap := cs3.takeWhile (fun d => !(quoteChar d))
            match cs3.dropWhile (fun d => !(quoteChar d)) with
            | q2 :: _ =>
              if quoteChar q2 && !cap.isEmpty then some (String.mk cap) else none
            | [] => none
          else none
      else none

/-- `re.search`: leftmost position at which the whole pattern matches. -/
def reSearchKey : List Char → Option String
  | [] => none
  | c :: cs =>
    match matchHere (c :: cs) with
    | some v => some v
    | none => reSearchKey cs

/-- The `match.group(1)` value extracted from a config.js content, if
the pattern matches anywhere. -/
def apiKeyMatch (content : String) : Option String :=
  reSearchKey content.toList

/-- Python `str.startswith(p)`: the characters of `p` are a prefix of
the characters of `s`. -/
def pyStartswith (s p : String) : Bool :=
  p.toList.isPrefixOf s.toList

/-- `os.environ.get("GEMINI_API_KEY")` followed by the `if env_key:`
truthiness test (src/debug-server.py:44-46): an unset or empty
environment variable yields nothing. -/
def envValue : Option String → Option String
  | some s => if s.isEmpty then none else some s
  | none => none

/-- `get_api_key` (src/debug-server.py:26-48).  `configJs` is the
content of `config.js`, `none` when opening it raises
`FileNotFoundError`; `envVar` is the raw environment variable.
Control flow as in the source: the config.js candidate is inspected
first and returned when it starts with `AIza`; otherwise (no file, no
match, or a non-`AIza` candidate, which is only logged) the environment
variable is consulted; `None` when neither yields a value. -/
def get_api_key (configJs : Option String) (envVar : Option String) : Option String :=
  match configJs with
  | some content =>
    match apiKeyMatch content with
    | some candidate =>
      if pyStartswith candidate "AIza" then some candidate
      else envValue envVar
    | none => envValue envVar
  | none => envValue envVar

/-! ## JSON serialisation of the responses

Models `json.dumps` (default `ensure_ascii` separators) for the
single-key objects the server writes. -/

def hexDigit (n : Nat) : Char :=
  if n < 10 then Char.ofNat (48 + n) else Char.ofNat (87 + n)

def hex4 (n : Nat) : String :=
  String.mk [hexDigit (n / 4096 % 16), hexDigit (n / 256 % 16),
             hexDigit (n / 16 % 16), hexDigit (n % 16)]

/-- `json.dumps` escaping of one character (default `ensure_ascii`). -/
def jsonEscapeChar (c : Char) : String :=
  let n := c.toNat
  if c == '"' then "\\\""
  else if c == '\\' then "\\\\"
  else if c == '\n' then "\\n"
  else if c == '\t' then "\\t"
  else if c == '\r' then "\\r"
  else if n == 8 then "\\b"
  else if n == 12 then "\\f"
  else if n < 0x20 || n > 0x7E then
    if n ≥ 0x10000 then
      "\\u" ++ hex4 (0xD800 + (n - 0x10000) / 0x400) ++
      "\\u" ++ hex4 (0xDC00 + (n - 0x10000) % 0x400)
    else "\\u" ++ hex4 n
  else String.singleton c

def jsonDumpStr (s : String) : String :=
  "\"" ++ String.join (s.toList.map jsonEscapeChar) ++ "\""

/-- `json.dumps` of a one-entry dict of strings, e.g.
`json.dumps(\x7b'status': 'logged'\x7d) = "\x7b\"status\": \"logged\"\x7d"`. -/
def jsonDumpObj1 (k v : String) : String :=
  "\x7b" ++ jsonDumpStr k ++ ": " ++ jsonDumpStr v ++ "\x7d"

/-! ## HTTP model -/

inductive Method where
  | get
  | post
  | other (m : String)

/-- One client request: method, path, the `Content-Length` header when
present, and the bytes readable from the connection (`rfile.read(n)`
is modelled as `stream.take n`). -/
structure Request where
  method : Method
  path : String
  contentLength : Option Nat
  stream : List Nat

/-- Body of a response, at the level of detail the handlers decide:
nothing written, a text payload written with `wfile.write`, the default
HTML error page of `send_error` (which embeds the code and message), or
whatever the static-file handler produced. -/
inductive RespBody where
  | empty
  | text (s : String)
  | errorPage (code : Nat) (message : String)
  | static (payload : List Nat)

structure Response where
  status : Nat
  headers : List (String × String)
  body : RespBody

/-- The CORS header injected by the `end_headers` override. -/
def corsPair : String × String := ("Access-Control-Allow-Origin", "*")

/-- `LogRequestHandler.end_headers` (src/debug-server.py:174-176):
every finalised header block gains the unrestricted CORS header before
the superclass terminates the block. -/
def end_headers (hs : List (String × String)) : List (String × String) :=
  hs ++ [corsPair]

/-- `BaseHTTPRequestHandler.send_error(code, message)`: a response with
the given status, `Content-Type`/`Connection` headers, finalised by the
(overridden) `end_headers`, carrying the default HTML error page. -/
def send_error (code : Nat) (message : String) : Response :=
  { status := code
    headers := end_headers [("Content-Type", "text/html;charset=utf-8"), ("Connection", "close")]
    body := RespBody.errorPage code message }

/-- Observable side effects of handling one request: console lines
printed, rows inserted into `login_history`, and the calls made to the
provider client (constructor calls, `generate_content` calls,
`auth_tokens.create` calls with their `uses` bound). -/
structure Effects where
  console : List String := []
  ledger : List (JValue × Option JValue) := []
  clientInits : List (Option String × String) := []
  inferCalls : List (String × JValue × List Nat × String) := []
  tokenCalls : List Nat := []

/-- Outcome of one request: the response sent (`none` when an unhandled
exception escaped the `do_*` method, so that no response was written to
the connection), plus the side effects. -/
structure HResult where
  response : Option Response
  effects : Effects := {}

/-- The `google.genai` provider client, an external collaborator: the
behaviour of `genai.Client(...)` construction, of
`models.generate_content`, and of `auth_tokens.create` (returning the
token `name`).  `Except.error` models a raised provider exception with
its message. -/
structure Genai where
  clientInit : Option String → String → Except String Unit
  generate : String → JValue → List Nat → String → Except String String
  createToken : Nat → Except String String

/-- The world outside the repository's code: `json.loads`,
`base64.b64decode`, the possibly-unimported `google.genai` module,
`SimpleHTTPRequestHandler`'s static file serving (status, headers
before finalisation, body for a given path), and Python's `hash` on
strings (only used in a console line). -/
structure Env where
  jsonLoads : List Nat → Except String JValue
  b64decode : JValue → Except String (List Nat)
  genai : Option Genai
  staticServe : String → Nat × List (String × String) × RespBody
  pyHash : String → Int

/-- Process-wide configuration: the module-level `API_KEY`
(`get_api_key()` resolved once at start). -/
structure Config where
  apiKey : Option String

/-! ## The routes (LogRequestHandler) -/

/-- `POST /log` (src/debug-server.py:67-72).  A missing
`Content-Length` header makes `int(self.headers['Content-Length'])`
raise `TypeError`, and a body that is not valid UTF-8 makes
`post_data.decode('utf-8')` raise `UnicodeDecodeError`; neither is
caught, so no response is sent.  Otherwise the decoded body is printed
with the `[REMOTE LOG]` tag and a `200` with empty body is sent. -/
def logRoute (req : Request) : HResult :=
  match req.contentLength with
  | none => { response := none }
  | some n =>
    match utf8Decode (req.stream.take n) with
    | none => { response := none }
    | some s =>
      { response := some { status := 200, headers := end_headers [], body := RespBody.empty }
        effects := { console := ["[REMOTE LOG] " ++ s] } }

/-- The `except Exception` arm of the `/vision` route
(src/debug-server.py:104-108): console line plus
`send_error(500, f"Vision proxy failed: ...")`. -/
def visionFail (e : String) (eff : Effects) : HResult :=
  { response := some (send_error 500 ("Vision proxy failed: " ++ e))
    effects := { eff with console := eff.console ++ ["[VISION] Error: " ++ e] } }

/-- `POST /vision` (src/debug-server.py:74-108).  The whole route body
is inside `try/except Exception`: a JSON parse failure, a `.get` on a
non-dict body, a failing client construction, a base64 failure or a
provider inference failure all surface as `500`.  A missing or falsy
`image` is answered `400` before any client work.  `prompt` defaults to
the fixed scene-description string.  On success: `200` with
`json.dumps(\x7b'text': ...\x7d)`. -/
def visionRoute (cfg : Config) (env : Env) (req : Request) : HResult :=
  let n := req.contentLength.getD 0
  match env.jsonLoads (req.stream.take n) with
  | Except.error e => visionFail e {}
  | Except.ok (JValue.obj kvs) =>
    let promptVal := (dictGet kvs "prompt").getD (JValue.str "Describe this scene.")
    match dictGet kvs "image" with
    | none => { response := some (send_error 400 "Missing image data") }
    | some imageVal =>
      if pyTruthy imageVal == false then
        { response := some (send_error 400 "Missing image data") }
      else
        match env.genai with
        | none =>
          -- `genai` is `None` after a failed import: `genai.Client`
          -- raises AttributeError inside the try block.
          visionFail (attrErrMsg JValue.null "Client") {}
        | some g =>
          let inits := [(cfg.apiKey, "v1beta")]
          match g.clientInit cfg.apiKey "v1beta" with
          | Except.error e => visionFail e { clientInits := inits }
          | Except.ok _ =>
            match env.b64decode imageVal with
            | Except.error e => visionFail e { clientInits := inits }
            | Except.ok imageBytes =>
              let calls := [("gemini-3-flash-preview", promptVal, imageBytes, "image/jpeg")]
              match g.generate "gemini-3-flash-preview" promptVal imageBytes "image/jpeg" with
              | Except.error e =>
                visionFail e { clientInits := inits, inferCalls := calls }
              | Except.ok txt =>
                { response := some
                    { status := 200
                      headers := end_headers [("Content-Type", "application/json")]
                      body := RespBody.text (jsonDumpObj1 "text" txt) }
                  effects := { console := ["[VISION] Successfully processed vision request."]
                               clientInits := inits, inferCalls := calls } }
  | Except.ok other =>
    -- `data.get('image')` on a non-dict raises AttributeError.
    visionFail (attrErrMsg other "get") {}

/-- The `except Exception` arm of the `/auth/login` route
(src/debug-server.py:133-135). -/
def authFail (e : String) : HResult :=
  { response := some (send_error 500 ("Auth logging failed: " ++ e))
    effects := { console := ["[AUTH] Error: " ++ e] } }

/-- `POST /auth/login` (src/debug-server.py:110-135).  Inside
`try/except Exception`: parse failures and `.get` on a non-dict body
surface as `500`; a missing or falsy `email` is answered
`send_error(400, "Missing email")`; otherwise one row `(email, name)`
is inserted into `login_history` and a `200` with
`json.dumps(\x7b'status': 'logged'\x7d)` is sent (the insert into the
table created at start is modelled as always succeeding). -/
def authLoginRoute (env : Env) (req : Request) : HResult :=
  let n := req.contentLength.getD 0
  match env.jsonLoads (req.stream.take n) with
  | Except.error e => authFail e
  | Except.ok (JValue.obj kvs) =>
    match dictGet kvs "email" with
    | none => { response := some (send_error 400 "Missing email") }
    | some emailVal =>
      if pyTruthy emailVal == false then
        { response := some (send_error 400 "Missing email") }
      else
        { response := some
            { status := 200
              headers := end_headers []
              body := RespBody.text (jsonDumpObj1 "status" "logged") }
          effects := { console := ["[AUTH] Logged login for: " ++ pyStr emailVal]
                       ledger := [(emailVal, dictGet kvs "name")] } }
  | Except.ok other => authFail (attrErrMsg other "get")

/-- `GET /token` (src/debug-server.py:141-172).  The guard
`if not API_KEY or not genai` answers
`send_error(500, "Server not configured for token generation")`
without touching the client.  Otherwise, inside `try/except`: the
client is constructed for `v1alpha`, a key-hash console line is
printed, and `auth_tokens.create(config=\x7b'uses': 100\x7d)` is
requested; failures surface as `send_error(500, str(e))`, success as
`200` with `json.dumps(\x7b'token': token.name\x7d)`. -/
def tokenRoute (cfg : Config) (env : Env) : HResult :=
  match cfg.apiKey, env.genai with
  | some k, some g =>
    if k.isEmpty then
      { response := some (send_error 500 "Server not configured for token generation") }
    else
      let inits := [(some k, "v1alpha")]
      match g.clientInit (some k) "v1alpha" with
      | Except.error e =>
        { response := some (send_error 500 e)
          effects := { console := ["[TOKEN ERROR] " ++ e], clientInits := inits } }
      | Except.ok _ =>
        let hashLine :=
          "[TOKEN] Using API Key hash: " ++ toString (env.pyHash k) ++
          " (Length: " ++ toString k.length ++ ")"
        match g.createToken 100 with
        | Except.error e =>
          { response := some (send_error 500 e)
            effects := { console := [hashLine, "[TOKEN ERROR] " ++ e]
                         clientInits := inits, tokenCalls := [100] } }
        | Except.ok tokenName =>
          { response := some
              { status := 200
                headers := end_headers [("Content-type", "application/json")]
                body := RespBody.text (jsonDumpObj1 "token" tokenName) }
            effects := { console := [hashLine, "[TOKEN] Generated ephemeral token: " ++ tokenName]
                         clientInits := inits, tokenCalls := [100] } }
  | _, _ =>
    { response := some (send_error 500 "Server not configured for token generation") }

/-- `super().do_GET()`: static file serving delegated to
`SimpleHTTPRequestHandler`, whose outcome (status, pre-finalisation
headers, body) is external; every outcome finalises its headers
through the overridden `end_headers`. -/
def staticRoute (env : Env) (req : Request) : HResult :=
  let out := env.staticServe req.path
  { response := some { status := out.1, headers := end_headers out.2.1, body := out.2.2 } }

/-- `LogRequestHandler.do_POST` (src/debug-server.py:66-139): dispatch
on the exact path, `404` for everything unmapped. -/
def do_POST (cfg : Config) (env : Env) (req : Request) : HResult :=
  if req.path == "/log" then logRoute req
  else if req.path == "/vision" then visionRoute cfg env req
  else if req.path == "/auth/login" then authLoginRoute env req
  else { response := some (send_error 404 "Not Found") }

/-- `LogRequestHandler.do_GET` (src/debug-server.py:141-172):
`/token`, else the static-file fallback. -/
def do_GET (cfg : Config) (env : Env) (req : Request) : HResult :=
  if req.path == "/token" then tokenRoute cfg env else staticRoute env req

/-- Method dispatch of `BaseHTTPRequestHandler.handle_one_request`:
`do_GET`/`do_POST`, and `send_error(501)` for an unsupported method
(also finalised through the overridden `end_headers`). -/
def handle_one_request (cfg : Config) (env : Env) (req : Request) : HResult :=
  match req.method with
  | Method.post => do_POST cfg env req
  | Method.get => do_GET cfg env req
  | Method.other m =>
    { response := some (send_error 501 ("Unsupported method (\x27" ++ m ++ "\x27)")) }

/-! ## The administrative tool (src/tools/user_manager.py)

The `users` table is a list of rows; the external collaborators
(`hashlib.pbkdf2_hmac` and the `os.urandom(16).hex()` salt draw) are
explicit parameters. -/

structure UserRow where
  email : String
  password_hash : String
  salt : String

/-- `init_user_table` (src/tools/user_manager.py:12-18):
`CREATE TABLE IF NOT EXISTS users` — an absent table becomes an empty
one, an existing table is untouched. -/
def init_user_table (store : Option (List UserRow)) : List UserRow :=
  store.getD []

/-- `hash_password` (src/tools/user_manager.py:20-25).  `pbkdf2`
models `hashlib.pbkdf2_hmac('sha256', password, salt, 100000).hex()`;
`saltDraw` is the `os.urandom(16).hex()` value drawn when no salt is
passed (`add_user` always passes none). -/
def hash_password (pbkdf2 : String → String → String)
    (password : String) (saltDraw : String) : String × String :=
  (pbkdf2 password saltDraw, saltDraw)

/-- `INSERT OR REPLACE INTO users` with `email` as PRIMARY KEY: any
existing row with the same email is replaced by the new row. -/
def insertOrReplace (db : List UserRow) (row : UserRow) : List UserRow :=
  db.filter (fun r => !(r.email == row.email)) ++ [row]

/-- `add_user` (src/tools/user_manager.py:27-42): ensure the table,
derive the salted hash, upsert keyed on email. -/
def add_user (pbkdf2 : String → String → String) (store : Option (List UserRow))
    (email password saltDraw : String) : List UserRow :=
  let db := init_user_table store
  let hp := hash_password pbkdf2 password saltDraw
  insertOrReplace db { email := email, password_hash := hp.1, salt := hp.2 }

/-- `list_users` (src/tools/user_manager.py:44-56):
`SELECT email FROM users`. -/
def list_users (store : Option (List UserRow)) : List String :=
  (init_user_table store).map (fun r => r.email)

/-! ## Concrete fixtures for witnesses and counterexamples -/

/-- A provider client refusing an absent credential at construction
(and otherwise trivially succeeding). -/
def gRefuse : Genai :=
  { clientInit := fun k _ =>
      match k with
      | none => Except.error "Missing key inputs argument!"
      | some _ => Except.ok ()
    generate := fun _ _ _ _ => Except.ok "a scene"
    createToken := fun _ => Except.ok "authTokens/demo" }

def cfgAbsent : Config := { apiKey := none }

def cfgSet : Config := { apiKey := some "AIzaExampleKey" }

/-- A static-file serving outcome: 404 page, the default of
`SimpleHTTPRequestHandler` when the path is unknown. -/
def static404 : Nat × List (String × String) × RespBody :=
  (404, [("Content-Type", "text/html;charset=utf-8")], RespBody.errorPage 404 "File not found")

/-- An environment whose `json.loads` always reports malformed input. -/
def envBadJson : Env :=
  { jsonLoads := fun _ => Except.error "Expecting value: line 1 column 1 (char 0)"
    b64decode := fun _ => Except.error "Invalid base64-encoded string"
    genai := none
    staticServe := fun _ => static404
    pyHash := fun _ => 0 }

/-- An environment whose `json.loads` yields `\x7b"email": null\x7d`. -/
def envEmailNull : Env :=
  { envBadJson with jsonLoads := fun _ => Except.ok (JValue.obj [("email", JValue.null)]) }

/-- An environment whose `json.loads` yields `\x7b"email": ""\x7d`. -/
def envEmailEmpty : Env :=
  { envBadJson with jsonLoads := fun _ => Except.ok (JValue.obj [("email", JValue.str "")]) }

/-- An environment whose `json.loads` yields `\x7b"image": ""\x7d`. -/
def envImageEmpty : Env :=
  { envBadJson with jsonLoads := fun _ => Except.ok (JValue.obj [("image", JValue.str "")]) }

/-- An environment whose `json.loads` yields `\x7b\x7d` (an empty JSON
object body). -/
def envEmptyObj : Env :=
  { envBadJson with jsonLoads := fun _ => Except.ok (JValue.obj []) }

/-- An environment with a well-formed vision body and a provider client
that refuses an absent credential. -/
def envVisionReady : Env :=
  { envBadJson with
    jsonLoads := fun _ => Except.ok (JValue.obj [("image", JValue.str "QUFBQQ==")])
    b64decode := fun _ => Except.ok [65, 65, 65]
    genai := some gRefuse }

/-- An environment with a well-formed login body
`\x7b"email": "a@b.com", "name": "A"\x7d`. -/
def envLoginOk : Env :=
  { envBadJson with
    jsonLoads := fun _ =>
      Except.ok (JValue.obj [("email", JValue.str "a@b.com"), ("name", JValue.str "A")]) }

def reqPost (p : String) : Request :=
  { method := Method.post, path := p, contentLength := some 2, stream := [123, 125] }

def reqGetToken : Request :=
  { method := Method.get, path := "/token", contentLength := none, stream := [] }

/-- A `POST /log` request whose single body byte 0xFF is not valid
UTF-8. -/
def reqLogBad : Request :=
  { method := Method.post, path := "/log", contentLength := some 1, stream := [255] }

/-- A `POST /log` request with body `"hi"`. -/
def reqLogHi : Request :=
  { method := Method.post, path := "/log", contentLength := some 2, stream := [104, 105] }

/-- Modelled from the spec: the Upstream AI Client Adapter's own code
is not part of this repository (only its callers are; `google.genai`
is the external provider client).  Spec §4.3: "Both operations are
authenticated using the resolved Credential" — so constructing the
client with an absent credential raises a provider error rather than
proceeding unauthenticated. -/
def AdapterAuthRequired (g : Genai) : Prop :=
  ∀ ver, ∃ m, g.clientInit none ver = Except.error m

/-! ## Theorems -/

/-- Two string prefixes with different first characters cannot both be
prefixes: a `wss://`- or `http`-prefixed candidate is never
`AIza`-prefixed. -/
theorem pyStartswith_excl (v p₁ p₂ : String) (c₁ c₂ : Char) (r₁ r₂ : List Char)
    (h₁ : p₁.toList = c₁ :: r₁) (h₂ : p₂.toList = c₂ :: r₂) (hne : ¬ c₂ = c₁)
    (h : pyStartswith v p₁ = true) : pyStartswith v p₂ = false := by
  unfold pyStartswith at h ⊢
  rw [h₁] at h
  rw [h₂]
  cases hv : v.toList with
  | nil => rw [hv] at h; simp [List.isPrefixOf] at h
  | cons d rest =>
    rw [hv] at h
    simp only [List.isPrefixOf, Bool.and_eq_true, beq_iff_eq] at h
    simp only [List.isPrefixOf, Bool.and_eq_false_iff]
    left
    simpa using fun hc => hne (hc.trans h.1.symm)

/-- Claim C2, counterexample: with `config.js` containing
`GEMINI_API_KEY = "AIzaTest"` and the environment variable set to
`ENVKEY`, the resolver returns the config-file value, not the
environment variable — the environment variable is not consulted
first. -/
theorem config_priority_over_env_cx :
    get_api_key (some "const GEMINI_API_KEY = \"AIzaTest\";") (some "ENVKEY")
      = some "AIzaTest" ∧ ("AIzaTest" : String) ≠ "ENVKEY" := by
  constructor
  · rfl
  · decide

/-- Claim C2 (amended): credential resolution consults the legacy
config file first; a pattern-matched, `AIza`-prefixed config value
wins regardless of the environment variable, and the environment
variable is consulted exactly when the config file is missing, has no
pattern match, or its matched value lacks the key prefix; with a
missing or empty environment variable that fallback is absent. -/
theorem credential_resolution_order (configJs envVar : Option String) :
    (∀ v, configJs.bind apiKeyMatch = some v → pyStartswith v "AIza" = true →
        get_api_key configJs envVar = some v) ∧
    ((∀ v, configJs.bind apiKeyMatch = some v → pyStartswith v "AIza" = false) →
        get_api_key configJs envVar = envValue envVar) := by
  constructor
  · intro v hv hA
    cases configJs with
    | none => simp at hv
    | some content =>
      simp only [Option.bind] at hv
      simp [get_api_key, hv, hA]
  · intro h
    cases configJs with
    | none => simp [get_api_key]
    | some content =>
      cases hm : apiKeyMatch content with
      | none => simp [get_api_key, hm]
      | some v =>
        have hA := h v (by simp only [Option.bind]; exact hm)
        simp [get_api_key, hm, hA]

/-- Witness for the amended C2 at a concrete config file and an unset
environment variable. -/
theorem credential_resolution_order_witness :
    get_api_key (some "GEMINI_API_KEY = \x27AIzaW\x27") none = some "AIzaW" :=
  (credential_resolution_order (some "GEMINI_API_KEY = \x27AIzaW\x27") none).1
    "AIzaW" (by decide) (by decide)

/-- Claim C6 (confirmed): when the legacy config content matches the
assignment pattern, an `AIza`-prefixed value is returned as the
credential, while a `wss://`- or `http`-prefixed value is rejected and
the environment variable is consulted instead. -/
theorem config_candidate_gate (content : String) (envVar : Option String) (v : String)
    (hm : apiKeyMatch content = some v) :
    (pyStartswith v "AIza" = true → get_api_key (some content) envVar = some v) ∧
    ((pyStartswith v "wss://" = true ∨ pyStartswith v "http" = true) →
      get_api_key (some content) envVar = envValue envVar) := by
  constructor
  · intro hA
    simp [get_api_key, hm, hA]
  · intro h
    have hA : pyStartswith v "AIza" = false := by
      cases h with
      | inl h => exact pyStartswith_excl v "wss://" "AIza" 'w' 'A' _ _ rfl rfl (by decide) h
      | inr h => exact pyStartswith_excl v "http" "AIza" 'h' 'A' _ _ rfl rfl (by decide) h
    simp [get_api_key, hm, hA]

/-- Witness for C6: a concrete `wss://` proxy value in the config file
is rejected and the set environment variable is returned. -/
theorem config_candidate_gate_witness :
    get_api_key (some "GEMINI_API_KEY = \"wss://proxy\"") (some "AIzaEnv")
      = some "AIzaEnv" := by
  have h := (config_candidate_gate "GEMINI_API_KEY = \"wss://proxy\"" (some "AIzaEnv")
    "wss://proxy" (by decide)).2 (Or.inl (by decide))
  simpa using h

/-- Claim C3 (confirmed): with the credential absent or the provider
client unavailable, every `GET /token` request is answered `500` and
the provider client is never touched (no construction, no inference,
no token mint). -/
theorem token_absent_credential_500_no_adapter (cfg : Config) (env : Env)
    (cl : Option Nat) (st : List Nat)
    (h : cfg.apiKey = none ∨ env.genai = none) :
    (∃ resp, (handle_one_request cfg env
        { method := Method.get, path := "/token", contentLength := cl, stream := st }).response
          = some resp ∧ resp.status = 500) ∧
    (handle_one_request cfg env
        { method := Method.get, path := "/token", contentLength := cl, stream := st }).effects.clientInits = [] ∧
    (handle_one_request cfg env
        { method := Method.get, path := "/token", contentLength := cl, stream := st }).effects.inferCalls = [] ∧
    (handle_one_request cfg env
        { method := Method.get, path := "/token", contentLength := cl, stream := st }).effects.tokenCalls = [] := by
  have hroute : handle_one_request cfg env
      { method := Method.get, path := "/token", contentLength := cl, stream := st }
      = tokenRoute cfg env := by
    simp [handle_one_request, do_GET]
  rw [hroute]
  cases h with
  | inl h =>
    simp [tokenRoute, h, send_error]
  | inr h =>
    cases hA : cfg.apiKey <;> simp [tokenRoute, h, hA, send_error]

/-- Witness for C3 at a concrete absent-credential configuration. -/
theorem token_absent_credential_500_no_adapter_witness :
    (∃ resp, (handle_one_request cfgAbsent envBadJson reqGetToken).response
        = some resp ∧ resp.status = 500) ∧
    (handle_one_request cfgAbsent envBadJson reqGetToken).effects.clientInits = [] ∧
    (handle_one_request cfgAbsent envBadJson reqGetToken).effects.inferCalls = [] ∧
    (handle_one_request cfgAbsent envBadJson reqGetToken).effects.tokenCalls = [] :=
  token_absent_credential_500_no_adapter cfgAbsent envBadJson none [] (Or.inl rfl)

/-- Claim C1, counterexample: a `POST /auth/login` whose body fails
`json.loads` is answered with status `500` — which is not a 400-class
status — because the parse error is caught by the route's blanket
`except Exception` and surfaced with `send_error(500, ...)`. -/
theorem malformed_json_500_cx :
    (handle_one_request cfgAbsent envBadJson (reqPost "/auth/login")).response.map
        Response.status = some 500 ∧
    ¬(400 ≤ 500 ∧ 500 < 500) := by
  constructor
  · rfl
  · decide

/-- Claim C1 (amended): for every POST to `/vision` or `/auth/login`
whose body is not well-formed JSON, the router responds with status
`500` (a server error carrying the route's failure message), not a
400-class error. -/
theorem malformed_json_post_yields_500 (cfg : Config) (env : Env)
    (cl : Option Nat) (st : List Nat) (p : String) (e : String)
    (hp : p = "/vision" ∨ p = "/auth/login")
    (hj : env.jsonLoads (st.take (cl.getD 0)) = Except.error e) :
    ∃ resp, (handle_one_request cfg env
        { method := Method.post, path := p, contentLength := cl, stream := st }).response
          = some resp ∧ resp.status = 500 := by
  cases hp with
  | inl hp =>
    subst hp
    simp [handle_one_request, do_POST, visionRoute, hj, visionFail, send_error]
  | inr hp =>
    subst hp
    simp [handle_one_request, do_POST, authLoginRoute, hj, authFail, send_error]

/-- Witness for the amended C1 at a concrete malformed body. -/
theorem malformed_json_post_yields_500_witness :
    ∃ resp, (handle_one_request cfgAbsent envBadJson
        { method := Method.post, path := "/vision", contentLength := some 2, stream := [123, 125] }).response
          = some resp ∧ resp.status = 500 :=
  malformed_json_post_yields_500 cfgAbsent envBadJson (some 2) [123, 125] "/vision"
    "Expecting value: line 1 column 1 (char 0)" (Or.inl rfl) rfl

/-- Claim C4, counterexample: a well-formed `POST /auth/login` body in
which `email` is present but bound to JSON `null` is answered `400`
with no ledger append — presence of the field alone does not produce
the 200/append behaviour, because the handler tests Python truthiness
(`if not email`). -/
theorem login_null_email_cx :
    (handle_one_request cfgAbsent envEmailNull (reqPost "/auth/login")).response.map
        Response.status = some 400 ∧
    (handle_one_request cfgAbsent envEmailNull (reqPost "/auth/login")).effects.ledger = [] := by
  exact ⟨rfl, rfl⟩

/-- Claim C4 (amended): for every well-formed `POST /auth/login` body,
if `email` is present with a truthy value (e.g. a non-empty string)
then exactly one LoginEvent `(email, name)` is appended and the
response is `200` with body `json.dumps(\x7b'status': 'logged'\x7d)`;
if `email` is absent — or present but falsy, which the handler treats
identically — the response is `400` and nothing is appended. -/
theorem login_email_dichotomy (cfg : Config) (env : Env)
    (cl : Option Nat) (st : List Nat) (kvs : List (String × JValue))
    (hj : env.jsonLoads (st.take (cl.getD 0)) = Except.ok (JValue.obj kvs)) :
    (∀ v, dictGet kvs "email" = some v → pyTruthy v = true →
      ∃ resp, (handle_one_request cfg env
          { method := Method.post, path := "/auth/login", contentLength := cl, stream := st }).response
            = some resp ∧ resp.status = 200 ∧
        resp.body = RespBody.text (jsonDumpObj1 "status" "logged") ∧
        (handle_one_request cfg env
          { method := Method.post, path := "/auth/login", contentLength := cl, stream := st }).effects.ledger
            = [(v, dictGet kvs "name")]) ∧
    (pyTruthyOpt (dictGet kvs "email") = false →
      ∃ resp, (handle_one_request cfg env
          { method := Method.post, path := "/auth/login", contentLength := cl, stream := st }).response
            = some resp ∧ resp.status = 400 ∧
        (handle_one_request cfg env
          { method := Method.post, path := "/auth/login", contentLength := cl, stream := st }).effects.ledger
            = []) := by
  have hroute : handle_one_request cfg env
      { method := Method.post, path := "/auth/login", contentLength := cl, stream := st }
      = authLoginRoute env { method := Method.post, path := "/auth/login", contentLength := cl, stream := st } := by
    simp [handle_one_request, do_POST]
  constructor
  · intro v hv htruthy
    rw [hroute]
    simp [authLoginRoute, hj, hv, htruthy]
  · intro hfalsy
    rw [hroute]
    cases hv : dictGet kvs "email" with
    | none => simp [authLoginRoute, hj, hv, send_error]
    | some v =>
      rw [hv] at hfalsy
      simp only [pyTruthyOpt] at hfalsy
      simp [authLoginRoute, hj, hv, hfalsy, send_error]

/-- Witness for the amended C4 at the concrete body
`\x7b"email": "a@b.com", "name": "A"\x7d`. -/
theorem login_email_dichotomy_witness :
    ∃ resp, (handle_one_request cfgAbsent envLoginOk
        { method := Method.post, path := "/auth/login", contentLength := some 2, stream := [123, 125] }).response
          = some resp ∧ resp.status = 200 ∧
      resp.body = RespBody.text (jsonDumpObj1 "status" "logged") ∧
      (handle_one_request cfgAbsent envLoginOk
        { method := Method.post, path := "/auth/login", contentLength := some 2, stream := [123, 125] }).effects.ledger
          = [(JValue.str "a@b.com", dictGet [("email", JValue.str "a@b.com"), ("name", JValue.str "A")] "name")] :=
  (login_email_dichotomy cfgAbsent envLoginOk (some 2) [123, 125]
      [("email", JValue.str "a@b.com"), ("name", JValue.str "A")] rfl).1
    (JValue.str "a@b.com") rfl rfl

/-- Claim C10 (confirmed): a required field that is present but equal
to the empty string is handled exactly like a missing one — an
`email` of `""` on `/auth/login` yields `400` with no ledger append,
and an `image` of `""` on `/vision` yields `400` without any provider
client construction or inference call. -/
theorem empty_string_fields_rejected (cfg : Config) (env : Env)
    (cl : Option Nat) (st : List Nat) (kvs : List (String × JValue)) :
    ((env.jsonLoads (st.take (cl.getD 0)) = Except.ok (JValue.obj kvs) ∧
      dictGet kvs "email" = some (JValue.str "")) →
      ∃ resp, (handle_one_request cfg env
          { method := Method.post, path := "/auth/login", contentLength := cl, stream := st }).response
            = some resp ∧ resp.status = 400 ∧
        (handle_one_request cfg env
          { method := Method.post, path := "/auth/login", contentLength := cl, stream := st }).effects.ledger
            = []) ∧
    ((env.jsonLoads (st.take (cl.getD 0)) = Except.ok (JValue.obj kvs) ∧
      dictGet kvs "image" = some (JValue.str "")) →
      ∃ resp, (handle_one_request cfg env
          { method := Method.post, path := "/vision", contentLength := cl, stream := st }).response
            = some resp ∧ resp.status = 400 ∧
        (handle_one_request cfg env
          { method := Method.post, path := "/vision", contentLength := cl, stream := st }).effects.inferCalls
            = [] ∧
        (handle_one_request cfg env
          { method := Method.post, path := "/vision", contentLength := cl, stream := st }).effects.clientInits
            = []) := by
  constructor
  · rintro ⟨hj, hv⟩
    simp [handle_one_request, do_POST, authLoginRoute, hj, hv, pyTruthy,
      (show String.isEmpty "" = true from rfl), send_error]
  · rintro ⟨hj, hv⟩
    simp [handle_one_request, do_POST, visionRoute, hj, hv, pyTruthy,
      (show String.isEmpty "" = true from rfl), send_error]

/-- Witness for C10 at the concrete bodies `\x7b"email": ""\x7d` and
`\x7b"image": ""\x7d`. -/
theorem empty_string_fields_rejected_witness :
    (∃ resp, (handle_one_request cfgAbsent envEmailEmpty
        { method := Method.post, path := "/auth/login", contentLength := some 2, stream := [123, 125] }).response
          = some resp ∧ resp.status = 400 ∧
      (handle_one_request cfgAbsent envEmailEmpty
        { method := Method.post, path := "/auth/login", contentLength := some 2, stream := [123, 125] }).effects.ledger
          = []) ∧
    (∃ resp, (handle_one_request cfgAbsent envImageEmpty
        { method := Method.post, path := "/vision", contentLength := some 2, stream := [123, 125] }).response
          = some resp ∧ resp.status = 400 ∧
      (handle_one_request cfgAbsent envImageEmpty
        { method := Method.post, path := "/vision", contentLength := some 2, stream := [123, 125] }).effects.inferCalls
          = [] ∧
      (handle_one_request cfgAbsent envImageEmpty
        { method := Method.post, path := "/vision", contentLength := some 2, stream := [123, 125] }).effects.clientInits
          = []) :=
  ⟨(empty_string_fields_rejected cfgAbsent envEmailEmpty (some 2) [123, 125]
      [("email", JValue.str "")]).1 ⟨rfl, rfl⟩,
   (empty_string_fields_rejected cfgAbsent envImageEmpty (some 2) [123, 125]
      [("image", JValue.str "")]).2 ⟨rfl, rfl⟩⟩

/-- Claim C5, counterexample: with the credential absent, a
well-formed `POST /vision` body lacking `image` is answered `400`
("Missing image data"), not `500` with a configuration error — the
route performs no up-front credential check, so the endpoint is not
uniformly disabled. -/
theorem vision_absent_credential_cx :
    (handle_one_request cfgAbsent envEmptyObj (reqPost "/vision")).response.map
        Response.status = some 400 ∧ (400 : Nat) ≠ 500 := by
  constructor
  · rfl
  · decide

/-- Claim C5 (amended): with the credential absent, `POST /vision`
never reaches the provider's inference call — the client is either
unavailable (`AttributeError`) or refuses construction without a
credential (the spec-modelled adapter contract) — and any request that
passes input validation (well-formed JSON body with a truthy `image`)
is answered `500`; invalid bodies are answered `400` (missing image)
or `500` (malformed JSON) instead. -/
theorem vision_absent_credential_no_inference (cfg : Config) (env : Env)
    (cl : Option Nat) (st : List Nat)
    (hk : cfg.apiKey = none)
    (hg : ∀ g, env.genai = some g → AdapterAuthRequired g) :
    (handle_one_request cfg env
        { method := Method.post, path := "/vision", contentLength := cl, stream := st }).effects.inferCalls
      = [] ∧
    (∀ kvs v, env.jsonLoads (st.take (cl.getD 0)) = Except.ok (JValue.obj kvs) →
      dictGet kvs "image" = some v → pyTruthy v = true →
      ∃ resp, (handle_one_request cfg env
          { method := Method.post, path := "/vision", contentLength := cl, stream := st }).response
            = some resp ∧ resp.status = 500) := by
  have hroute : handle_one_request cfg env
      { method := Method.post, path := "/vision", contentLength := cl, stream := st }
      = visionRoute cfg env { method := Method.post, path := "/vision", contentLength := cl, stream := st } := by
    simp [handle_one_request, do_POST]
  have hclient : ∀ g, env.genai = some g →
      ∃ m, g.clientInit cfg.apiKey "v1beta" = Except.error m := by
    intro g hgg
    rw [hk]
    exact hg g hgg "v1beta"
  constructor
  · rw [hroute]
    unfold visionRoute
    cases hj : env.jsonLoads (st.take (cl.getD 0)) with
    | error e => simp [hj, visionFail]
    | ok data =>
      cases data with
      | obj kvs =>
        cases hv : dictGet kvs "image" with
        | none => simp [hj, hv]
        | some v =>
          cases htruthy : pyTruthy v with
          | false => simp [hj, hv, htruthy]
          | true =>
            cases hgen : env.genai with
            | none => simp [hj, hv, htruthy, hgen, visionFail]
            | some g =>
              obtain ⟨m, hm⟩ := hclient g hgen
              simp [hj, hv, htruthy, hgen, hm, visionFail]
      | null => simp [hj, visionFail]
      | bool b => simp [hj, visionFail]
      | num n => simp [hj, visionFail]
      | str s => simp [hj, visionFail]
      | arr xs => simp [hj, visionFail]
  · intro kvs v hj hv htruthy
    rw [hroute]
    unfold visionRoute
    cases hgen : env.genai with
    | none => simp [hj, hv, htruthy, hgen, visionFail, send_error]
    | some g =>
      obtain ⟨m, hm⟩ := hclient g hgen
      simp [hj, hv, htruthy, hgen, hm, visionFail, send_error]

/-- Witness for the amended C5: a concrete well-formed vision request
against a client that refuses an absent credential yields `500` and no
inference call. -/
theorem vision_absent_credential_no_inference_witness :
    (handle_one_request cfgAbsent envVisionReady (reqPost "/vision")).effects.inferCalls = [] ∧
    (∃ resp, (handle_one_request cfgAbsent envVisionReady (reqPost "/vision")).response
        = some resp ∧ resp.status = 500) := by
  have h := vision_absent_credential_no_inference cfgAbsent envVisionReady (some 2) [123, 125]
    rfl (by
      intro g hgg ver
      have hgq : gRefuse = g := Option.some.inj hgg
      exact ⟨"Missing key inputs argument!", by rw [← hgq]; rfl⟩)
  exact ⟨h.1, h.2 [("image", JValue.str "QUFBQQ==")] (JValue.str "QUFBQQ==") rfl rfl rfl⟩

/-- Claim C8, counterexample: a `POST /log` whose body byte `0xFF` is
not valid UTF-8 makes `post_data.decode('utf-8')` raise an unhandled
`UnicodeDecodeError`: nothing is printed and no response at all is
sent (neither 200 nor any other status), even though the transport
delivered the request intact. -/
theorem log_non_utf8_cx :
    (handle_one_request cfgAbsent envBadJson reqLogBad).response = none ∧
    (handle_one_request cfgAbsent envBadJson reqLogBad).effects.console = [] := by
  exact ⟨rfl, rfl⟩

/-- Claim C8 (amended): for every `POST /log` request carrying a
`Content-Length` header and a body that decodes as UTF-8, the decoded
body is written verbatim to the console with the `[REMOTE LOG]` tag
and the response is `200` with an empty body; a body that is not valid
UTF-8 instead raises an unhandled decode error and no response is
sent. -/
theorem log_utf8_verbatim_200 (cfg : Config) (env : Env)
    (n : Nat) (st : List Nat) (s : String)
    (hd : utf8Decode (st.take n) = some s) :
    ∃ resp, (handle_one_request cfg env
        { method := Method.post, path := "/log", contentLength := some n, stream := st }).response
          = some resp ∧ resp.status = 200 ∧ resp.body = RespBody.empty ∧
      (handle_one_request cfg env
        { method := Method.post, path := "/log", contentLength := some n, stream := st }).effects.console
          = ["[REMOTE LOG] " ++ s] := by
  simp [handle_one_request, do_POST, logRoute, hd]

/-- Witness for the amended C8 at the concrete body `"hi"`. -/
theorem log_utf8_verbatim_200_witness :
    ∃ resp, (handle_one_request cfgAbsent envBadJson
        { method := Method.post, path := "/log", contentLength := some 2, stream := [104, 105] }).response
          = some resp ∧ resp.status = 200 ∧ resp.body = RespBody.empty ∧
      (handle_one_request cfgAbsent envBadJson
        { method := Method.post, path := "/log", contentLength := some 2, stream := [104, 105] }).effects.console
          = ["[REMOTE LOG] " ++ "hi"] :=
  log_utf8_verbatim_200 cfgAbsent envBadJson 2 [104, 105] "hi" (by decide)

/-- Rows kept by an email-removing filter never satisfy the
email-selecting filter. -/
theorem filter_ne_filter_eq (e : String) (xs : List UserRow) :
    (xs.filter (fun r => !(r.email == e))).filter (fun r => r.email == e) = [] := by
  induction xs with
  | nil => rfl
  | cons r xs ih =>
    cases h : r.email == e <;> simp [List.filter_cons, h, ih]

/-- Claim C9 (confirmed): upserting the same email twice with
different passwords leaves exactly one `users` row for that email,
whose `password_hash` is the PBKDF2 derivation of the second call's
password with that row's stored salt (the second call's fresh salt
draw). -/
theorem user_upsert_last_write_wins (pbkdf2 : String → String → String)
    (store : Option (List UserRow)) (e p₁ p₂ s₁ s₂ : String) (hp : p₁ ≠ p₂) :
    (add_user pbkdf2 (some (add_user pbkdf2 store e p₁ s₁)) e p₂ s₂).filter
        (fun r => r.email == e)
      = [{ email := e, password_hash := pbkdf2 p₂ s₂, salt := s₂ }] := by
  unfold add_user init_user_table hash_password insertOrReplace
  simp [List.filter_append, filter_ne_filter_eq]

/-- Witness for C9 at concrete emails, passwords and salt draws. -/
theorem user_upsert_last_write_wins_witness :
    (add_user (fun p s => p ++ s) (some (add_user (fun p s => p ++ s) none "a@b.com" "pw1" "s1"))
        "a@b.com" "pw2" "s2").filter (fun r => r.email == "a@b.com")
      = [{ email := "a@b.com", password_hash := "pw2" ++ "s2", salt := "s2" }] :=
  user_upsert_last_write_wins (fun p s => p ++ s) none "a@b.com" "pw1" "pw2" "s1" "s2"
    (by decide)

/-- The CORS header is in every finalised header block. -/
theorem cors_mem_end (hs : List (String × String)) : corsPair ∈ end_headers hs := by
  simp [end_headers]

/-- Every response of the `/log` route carries the CORS header. -/
theorem cors_logRoute (req : Request) (resp : Response)
    (h : (logRoute req).response = some resp) : corsPair ∈ resp.headers := by
  simp only [logRoute] at h
  repeat' split at h
  all_goals dsimp only at h
  all_goals first
    | exact Option.noConfusion h
    | (injection h with h; subst h; simp [send_error, end_headers])

/-- Every response of the `/vision` route carries the CORS header. -/
theorem cors_visionRoute (cfg : Config) (env : Env) (req : Request) (resp : Response)
    (h : (visionRoute cfg env req).response = some resp) : corsPair ∈ resp.headers := by
  simp only [visionRoute, visionFail] at h
  repeat' split at h
  all_goals dsimp only at h
  all_goals first
    | exact Option.noConfusion h
    | (injection h with h; subst h; simp [send_error, end_headers])

/-- Every response of the `/auth/login` route carries the CORS
header. -/
theorem cors_authLoginRoute (env : Env) (req : Request) (resp : Response)
    (h : (authLoginRoute env req).response = some resp) : corsPair ∈ resp.headers := by
  simp only [authLoginRoute, authFail] at h
  repeat' split at h
  all_goals dsimp only at h
  all_goals first
    | exact Option.noConfusion h
    | (injection h with h; subst h; simp [send_error, end_headers])

/-- Every response of the `/token` route carries the CORS header. -/
theorem cors_tokenRoute (cfg : Config) (env : Env) (resp : Response)
    (h : (tokenRoute cfg env).response = some resp) : corsPair ∈ resp.headers := by
  simp only [tokenRoute] at h
  repeat' split at h
  all_goals dsimp only at h
  all_goals first
    | exact Option.noConfusion h
    | (injection h with h; subst h; simp [send_error, end_headers])

/-- Every response of the static-file fallback carries the CORS
header. -/
theorem cors_staticRoute (env : Env) (req : Request) (resp : Response)
    (h : (staticRoute env req).response = some resp) : corsPair ∈ resp.headers := by
  simp only [staticRoute] at h
  injection h with h
  subst h
  simp [end_headers]

/-- Claim C7 (confirmed): every HTTP response the server produces —
any method, any path, any outcome, including the `404` for an unmapped
POST path and the static-file fallback — carries
`Access-Control-Allow-Origin: *`, injected by the overridden
`end_headers` through which every header block is finalised. -/
theorem cors_on_every_response (cfg : Config) (env : Env) (req : Request) (resp : Response)
    (h : (handle_one_request cfg env req).response = some resp) :
    corsPair ∈ resp.headers := by
  obtain ⟨m, p, clh, st⟩ := req
  cases m with
  | post =>
    simp only [handle_one_request, do_POST] at h
    split at h
    · exact cors_logRoute _ _ h
    · split at h
      · exact cors_visionRoute _ _ _ _ h
      · split at h
        · exact cors_authLoginRoute _ _ _ h
        · dsimp only at h
          injection h with h
          subst h
          simp [send_error, end_headers]
  | get =>
    simp only [handle_one_request, do_GET] at h
    split at h
    · exact cors_tokenRoute _ _ _ h
    · exact cors_staticRoute _ _ _ h
  | other s =>
    simp only [handle_one_request] at h
    injection h with h
    subst h
    simp [send_error, end_headers]

/-- Witness for C7: the `404` answer to an unmapped POST path carries
the CORS header. -/
theorem cors_on_every_response_witness :
    corsPair ∈ (send_error 404 "Not Found").headers :=
  cors_on_every_response cfgAbsent envBadJson
    { method := Method.post, path := "/nowhere", contentLength := some 0, stream := [] }
    (send_error 404 "Not Found") rfl
